import Mathlib

/-!
# Verification of the bcdl album-resolution and download pipeline

Shallow embedding of `src/bcdl/__init__.py`.  Python strings are Lean
`String`s; Python dicts (insertion-ordered) are association lists
`List (String × String)`; Python `None`-able values are `Option`s; a Python
exception is a `PyError` value carried in an `Except` or an `Option PyError`
channel.  Network content and the filesystem are passed explicitly: the body
fetched for a URL is a function `String → String` (empty string = empty
response body, which Python treats as falsy), and the set of existing files is
a `List String` of paths.  Side effects (page fetch, mkdir, asset fetch, file
write) are recorded in an explicit trace of `Effect`s; `asyncio.gather` runs
the per-job effect lists whose destination-existence filter was evaluated
before any task starts, exactly as the Python list comprehension does.
-/

set_option autoImplicit false

namespace Bcdl

/-- Python exceptions that the modelled code can raise.
`typeError` is `TypeError` (e.g. subscripting `None`), `valueError` is
`json.loads` failure, `indexError` is `list(...)[0]` on an empty list,
`notPurchased` is the repo's `NotPurchasedException`. -/
inductive PyError
  | typeError
  | valueError
  | indexError
  | notPurchased
deriving DecidableEq, Repr

/-- Python `str.replace(a, b)` for single-character `a`, `b`:
a character-wise map.  Embeds `track['title'].replace('/', ' ')`. -/
def pyReplaceChar (s : String) (a b : Char) : String :=
  String.mk (s.data.map (fun c => if c = a then b else c))

/-- One decimal digit character. -/
def digitChar (n : Nat) : Char :=
  if n = 0 then '0' else if n = 1 then '1' else if n = 2 then '2'
  else if n = 3 then '3' else if n = 4 then '4' else if n = 5 then '5'
  else if n = 6 then '6' else if n = 7 then '7' else if n = 8 then '8'
  else if n = 9 then '9' else '*'

/-- Decimal digits of `n`, most significant first; `fuel` bounds recursion
(structurally) and `n + 1` fuel always suffices. -/
def natDigitsGo (fuel n : Nat) : List Char :=
  match fuel with
  | 0 => []
  | f + 1 =>
    if n < 10 then [digitChar n]
    else natDigitsGo f (n / 10) ++ [digitChar (n % 10)]

def natDigits (n : Nat) : List Char := natDigitsGo (n + 1) n

/-- Python `f"{n:02d}"` for a natural number: zero-pad to width 2. -/
def format02d (n : Nat) : String :=
  if n < 10 then String.mk ('0' :: natDigits n) else String.mk (natDigits n)

/-- `Path.joinpath` with one component: insert a single separator. -/
def joinpath (folder name : String) : String := folder ++ "/" ++ name

/-- The basename computed for one track:
`f"{track['track_num']:02d} - {track['title'].replace('/', ' ')}.mp3"`. -/
def trackBasename (track_num : Nat) (title : String) : String :=
  format02d track_num ++ " - " ++ pyReplaceChar title '/' ' ' ++ ".mp3"

/-- Does the character list `p` lead (begin) the character list `s`? -/
def leads : List Char → List Char → Bool
  | [], _ => true
  | _ :: _, [] => false
  | p :: ps, c :: cs => p == c && leads ps cs

/-- Python `s.startswith(p)`. -/
def strStartsWith (s p : String) : Bool := leads p.data s.data

/-- The URL marker the code tests with
`source_url.startswith("https://bandcamp.com/stream_redirect")`. -/
def redirect_marker : String := "https://bandcamp.com/stream_redirect"

/-- Python `d.get(k)` on a string-to-string dict modelled as an ordered
association list: the first binding of `k`, or `None`. -/
def getStr (m : List (String × String)) (k : String) : Option String :=
  Option.map Prod.snd (m.find? (fun p => p.1 == k))

/-- Python `a or b` on `Optional[str]` values: `a` unless it is falsy
(`None` or the empty string). -/
def pyOrStr (a b : Option String) : Option String :=
  match a with
  | none => b
  | some s => if s = "" then b else some s

/-- Source URL selection for one track's candidate mapping, lines 131-135:
`source_url = source_file.get("mp3-128") or source_file.get("mp3-v0")`;
if that is `None` or starts with the redirect marker, fall back to
`list(source_file.items())[0][1]`.  Returns `none` exactly when the fallback
would raise `IndexError` (empty mapping). -/
def selectSourceUrl (source_file : List (String × String)) : Option String :=
  match pyOrStr (getStr source_file "mp3-128") (getStr source_file "mp3-v0") with
  | none => Option.map Prod.snd source_file.head?
  | some source_url =>
    if strStartsWith source_url redirect_marker then
      Option.map Prod.snd source_file.head?
    else some source_url

/-- One entry of `tralbum_data["trackinfo"]`.  `file` is the
quality-label → URL mapping, `none` when the JSON value is `null`. -/
structure TrackInfo where
  track_num : Nat
  title : String
  file : Option (List (String × String))
deriving DecidableEq, Repr

/-- The parsed `data-tralbum` JSON blob (the fields the code reads). -/
structure TralbumData where
  is_purchased : Bool
  artist : String
  current_title : String
  trackinfo : List TrackInfo
deriving DecidableEq, Repr

/-- One yielded download job:
`{"target_file_name": fname, "source_url": source_url}`. -/
structure Job where
  target_file_name : String
  source_url : String
deriving DecidableEq, Repr

/-- The track loop of `generate_file_names` (lines 123-136).  Returns the
yielded jobs together with the list of "could not find url" warning paths;
`.error .indexError` models `list(source_file.items())[0]` raising on an
empty mapping (unreachable, as proved below). -/
def gen_tracks (folder : String) : List TrackInfo → Except PyError (List Job × List String)
  | [] => Except.ok ([], [])
  | track :: rest =>
    let fname := joinpath folder (trackBasename track.track_num track.title)
    match track.file with
    | none =>
      match gen_tracks folder rest with
      | Except.error e => Except.error e
      | Except.ok (jobs, warns) => Except.ok (jobs, fname :: warns)
    | some source_file =>
      if source_file = [] then
        match gen_tracks folder rest with
        | Except.error e => Except.error e
        | Except.ok (jobs, warns) => Except.ok (jobs, fname :: warns)
      else
        match selectSourceUrl source_file with
        | none => Except.error PyError.indexError
        | some source_url =>
          match gen_tracks folder rest with
          | Except.error e => Except.error e
          | Except.ok (jobs, warns) => Except.ok (Job.mk fname source_url :: jobs, warns)

/-- Python `s.split(c)` for a single-character separator. -/
def pySplitChar (s : String) (c : Char) : List String :=
  (s.data.splitOn c).map String.mk

/-- Python `s.split('.')[-1]`; `split` never returns an empty list, so the
default of `getLastD` is never used. -/
def pyLastSeg (s : String) : String := (pySplitChar s '.').getLastD ""

/-- The album-art tail of `generate_file_names` (lines 137-143):
`if album_art_url:` — one job for a truthy (present, non-empty) URL. -/
def art_jobs (folder : String) (album_art_url : Option String) : List Job :=
  match album_art_url with
  | none => []
  | some url =>
    if url = "" then []
    else [Job.mk (joinpath folder ("albumart." ++ pyLastSeg url)) url]

/-- `generate_file_names(tralbum_data, folder, album_art_url)`: the track
jobs in source order, then the art job when present. -/
def generate_file_names (tralbum_data : TralbumData) (folder : String)
    (album_art_url : Option String) : Except PyError (List Job × List String) :=
  match gen_tracks folder tralbum_data.trackinfo with
  | Except.error e => Except.error e
  | Except.ok (jobs, warns) => Except.ok (jobs ++ art_jobs folder album_art_url, warns)

/-- The job contributed by one track (summary of one pass of the loop body):
`none` when the track is skipped. -/
def trackJob (folder : String) (t : TrackInfo) : Option Job :=
  match t.file with
  | none => none
  | some source_file =>
    if source_file = [] then none
    else Option.map (fun u => Job.mk (joinpath folder (trackBasename t.track_num t.title)) u)
      (selectSourceUrl source_file)

/-- The warning contributed by one track: its would-be path when the
candidate mapping is absent or empty. -/
def trackWarn (folder : String) (t : TrackInfo) : Option String :=
  match t.file with
  | none => some (joinpath folder (trackBasename t.track_num t.title))
  | some source_file =>
    if source_file = [] then some (joinpath folder (trackBasename t.track_num t.title))
    else none

/-- Lines 108-110: the truthy `data-tralbum` attribute values of the head's
script elements (absent attributes and empty strings are filtered out). -/
def tralbum_blobs (scripts : List (Option String)) : List String :=
  scripts.filterMap (fun attr =>
    match attr with
    | none => none
    | some s => if s = "" then none else some s)

/-- `get_album_data_from_head` (lines 98-118), given the page's script
attributes and `json.loads` as `parse`.  Zero blobs: log and return `None`
(no exception!).  Multiple blobs: warn and take the first.
`.error .valueError` models `json.loads` raising. -/
def get_album_data_from_head (scripts : List (Option String))
    (parse : String → Option TralbumData) : Except PyError (Option TralbumData) :=
  match tralbum_blobs scripts with
  | [] => Except.ok none
  | s :: _ =>
    match parse s with
    | none => Except.error PyError.valueError
    | some td => Except.ok (some td)

/-- Observable side effects of the pipeline. -/
inductive Effect
  | fetchPage : String → Effect
  | mkdir : String → Effect
  | fetch : String → Effect
  | write : String → Effect
deriving DecidableEq, Repr

/-- `download_file` (lines 71-78): fetch the URL; if the body is empty
(falsy) return without writing, else write it to `file`. -/
def download_file (file url : String) (content : String → String) : List Effect :=
  let track := content url
  if track = "" then [Effect.fetch url]
  else [Effect.fetch url, Effect.write file]

/-- The dispatch filter (line 93 and line 175):
`if not elem["target_file_name"].exists()`, evaluated against the filesystem
as it is before any task runs. -/
def to_dispatch (download_list : List Job) (fs : List String) : List Job :=
  download_list.filter (fun elem => !(fs.contains elem.target_file_name))

/-- The paths written by a trace. -/
def writtenPaths (effects : List Effect) : List String :=
  effects.filterMap (fun e =>
    match e with
    | Effect.write p => some p
    | _ => none)

/-- `download_files` (lines 81-95): filter out existing destinations, run
`download_file` for each remaining job (`asyncio.gather`), return the trace
and the filesystem afterwards.  `download_album` lines 170-178 duplicate the
same dispatch structure and are modelled by this same function. -/
def download_files (download_list : List Job) (content : String → String)
    (fs : List String) : List Effect × List String :=
  let effects := (to_dispatch download_list fs).flatMap
    (fun elem => download_file elem.target_file_name elem.source_url content)
  (effects, fs ++ writtenPaths effects)

/-- Number of asset fetch attempts in a trace. -/
def countFetch (effects : List Effect) : Nat :=
  (effects.filter (fun e =>
    match e with
    | Effect.fetch _ => true
    | _ => false)).length

/-- Number of file writes in a trace. -/
def countWrite (effects : List Effect) : Nat := (writtenPaths effects).length

/-- `download_album` (lines 146-178): fetch the album page, extract the
blob, check `is_purchased` (raising `NotPurchasedException` before the
folder is created or any asset job is built), then mkdir and dispatch the
jobs of `generate_file_names`.  Result: (effect trace, filesystem after,
raised exception if any). -/
def download_album (library_folder album_url : String)
    (scripts : List (Option String)) (parse : String → Option TralbumData)
    (content : String → String) (fs : List String)
    (album_art_url : Option String) : List Effect × List String × Option PyError :=
  match get_album_data_from_head scripts parse with
  | Except.error e => ([Effect.fetchPage album_url], fs, some e)
  | Except.ok none => ([Effect.fetchPage album_url], fs, some PyError.typeError)
  | Except.ok (some tralbum_data) =>
    if tralbum_data.is_purchased = false then
      ([Effect.fetchPage album_url], fs, some PyError.notPurchased)
    else
      let folder := joinpath (joinpath library_folder tralbum_data.artist)
        tralbum_data.current_title
      match generate_file_names tralbum_data folder album_art_url with
      | Except.error e =>
        ([Effect.fetchPage album_url, Effect.mkdir folder], fs, some e)
      | Except.ok (download_list, _warns) =>
        let r := download_files download_list content fs
        (Effect.fetchPage album_url :: Effect.mkdir folder :: r.1, r.2, none)

/-! ## Helper lemmas -/

/-- On a non-empty candidate mapping the selection never hits the
`IndexError` branch. -/
theorem select_isSome (m : List (String × String)) (hm : m ≠ []) :
    (selectSourceUrl m).isSome = true := by
  match m with
  | [] => exact absurd rfl hm
  | a :: rest =>
    unfold selectSourceUrl
    cases h : pyOrStr (getStr (a :: rest) "mp3-128") (getStr (a :: rest) "mp3-v0") with
    | none => simp
    | some u => by_cases hr : strStartsWith u redirect_marker <;> simp [hr]

/-- The track loop equals the per-track summaries, in source order. -/
theorem gen_tracks_eq (folder : String) (ts : List TrackInfo) :
    gen_tracks folder ts
      = Except.ok (ts.filterMap (trackJob folder), ts.filterMap (trackWarn folder)) := by
  induction ts with
  | nil => rfl
  | cons t rest ih =>
    cases hf : t.file with
    | none =>
      simp [gen_tracks, hf, ih, trackJob, trackWarn, List.filterMap_cons]
    | some sf =>
      by_cases hsf : sf = []
      · subst hsf
        simp [gen_tracks, hf, ih, trackJob, trackWarn, List.filterMap_cons]
      · obtain ⟨u, hu⟩ := Option.isSome_iff_exists.mp (select_isSome sf hsf)
        simp [gen_tracks, hf, hsf, hu, ih, trackJob, trackWarn, List.filterMap_cons]

theorem digitChar_ne_slash (n : Nat) : digitChar n ≠ '/' := by
  unfold digitChar
  repeat' split
  all_goals decide

theorem natDigitsGo_no_slash (fuel : Nat) : ∀ n : Nat, '/' ∉ natDigitsGo fuel n := by
  induction fuel with
  | zero => intro n; simp [natDigitsGo]
  | succ f ih =>
    intro n
    unfold natDigitsGo
    by_cases h : n < 10
    · simp only [h, if_true, List.mem_singleton]
      exact fun hc => digitChar_ne_slash n hc.symm
    · simp only [h, if_false, List.mem_append, List.mem_singleton]
      push_neg
      exact ⟨ih _, fun hc => digitChar_ne_slash _ hc.symm⟩

theorem format02d_no_slash (n : Nat) : '/' ∉ (format02d n).data := by
  unfold format02d
  by_cases h : n < 10
  · rw [if_pos h]
    intro hc
    rcases List.mem_cons.mp hc with h0 | hmem
    · exact absurd h0 (by decide)
    · exact natDigitsGo_no_slash _ _ hmem
  · rw [if_neg h]
    intro hc
    exact natDigitsGo_no_slash _ _ hc

theorem pyReplaceChar_no_slash (s : String) : '/' ∉ (pyReplaceChar s '/' ' ').data := by
  intro hc
  unfold pyReplaceChar at hc
  rcases List.mem_map.mp hc with ⟨c, _, hc2⟩
  by_cases h : c = '/'
  · rw [if_pos h] at hc2
    exact absurd hc2 (by decide)
  · rw [if_neg h] at hc2
    exact h hc2

theorem trackBasename_no_slash (n : Nat) (title : String) :
    '/' ∉ (trackBasename n title).data := by
  unfold trackBasename
  intro hc
  rw [String.data_append, String.data_append, String.data_append] at hc
  rcases List.mem_append.mp hc with hc1 | hc4
  · rcases List.mem_append.mp hc1 with hc2 | hc3
    · rcases List.mem_append.mp hc2 with hca | hcb
      · exact format02d_no_slash n hca
      · exact absurd hcb (by decide)
    · exact pyReplaceChar_no_slash title hc3
  · exact absurd hc4 (by decide)

theorem download_files_fst (jobs : List Job) (content : String → String) (fs : List String) :
    (download_files jobs content fs).1
      = (to_dispatch jobs fs).flatMap
          (fun elem => download_file elem.target_file_name elem.source_url content) := rfl

theorem download_files_snd (jobs : List Job) (content : String → String) (fs : List String) :
    (download_files jobs content fs).2
      = fs ++ writtenPaths ((to_dispatch jobs fs).flatMap
          (fun elem => download_file elem.target_file_name elem.source_url content)) := rfl

theorem writtenPaths_append (a b : List Effect) :
    writtenPaths (a ++ b) = writtenPaths a ++ writtenPaths b := by
  simp [writtenPaths, List.filterMap_append]

theorem countFetch_append (a b : List Effect) :
    countFetch (a ++ b) = countFetch a + countFetch b := by
  simp [countFetch, List.filter_append]

theorem download_file_countFetch (f u : String) (content : String → String) :
    countFetch (download_file f u content) = 1 := by
  unfold download_file countFetch
  by_cases h : content u = "" <;> simp [h]

theorem countFetch_flatMap (content : String → String) (l : List Job) :
    countFetch (l.flatMap
      (fun elem => download_file elem.target_file_name elem.source_url content))
      = l.length := by
  induction l with
  | nil => rfl
  | cons a l ih =>
    rw [List.flatMap_cons, countFetch_append, ih, download_file_countFetch]
    simp [Nat.add_comm]

theorem length_filter_partition (l : List Job) (p : Job → Bool) :
    (l.filter (fun j => !(p j))).length + (l.filter p).length = l.length := by
  induction l with
  | nil => rfl
  | cons a l ih => cases h : p a <;> simp [List.filter_cons, h] <;> omega

theorem contains_false_iff (l : List String) (a : String) :
    l.contains a = false ↔ a ∉ l := by
  rw [Bool.eq_false_iff]
  exact not_congr List.elem_iff

theorem mem_to_dispatch (l : List Job) (fs : List String) (j : Job) :
    j ∈ to_dispatch l fs ↔ j ∈ l ∧ j.target_file_name ∉ fs := by
  unfold to_dispatch
  rw [List.mem_filter]
  constructor
  · rintro ⟨h1, h2⟩
    rw [Bool.not_eq_true'] at h2
    exact ⟨h1, (contains_false_iff _ _).mp h2⟩
  · rintro ⟨h1, h2⟩
    refine ⟨h1, ?_⟩
    rw [Bool.not_eq_true']
    exact (contains_false_iff _ _).mpr h2

theorem mem_writtenPaths_flatMap (content : String → String) :
    ∀ (l : List Job) (j : Job), j ∈ l → content j.source_url ≠ "" →
      j.target_file_name ∈ writtenPaths (l.flatMap
        (fun elem => download_file elem.target_file_name elem.source_url content)) := by
  intro l
  induction l with
  | nil => intro j hj; exact absurd hj (List.not_mem_nil j)
  | cons a l ih =>
    intro j hj hne
    rw [List.flatMap_cons, writtenPaths_append]
    rcases List.mem_cons.mp hj with rfl | hmem
    · refine List.mem_append.mpr (Or.inl ?_)
      unfold download_file writtenPaths
      rw [if_neg hne]
      simp
    · exact List.mem_append.mpr (Or.inr (ih j hmem hne))

theorem countWrite_eq_zero (content : String → String) (l : List Job)
    (h : ∀ j ∈ l, content j.source_url = "") :
    countWrite (l.flatMap
      (fun elem => download_file elem.target_file_name elem.source_url content)) = 0 := by
  induction l with
  | nil => rfl
  | cons a l ih =>
    rw [List.flatMap_cons]
    unfold countWrite
    rw [writtenPaths_append, List.length_append]
    have ha : writtenPaths (download_file a.target_file_name a.source_url content) = [] := by
      unfold download_file writtenPaths
      rw [if_pos (h a (List.mem_cons_self a l))]
      simp
    rw [ha]
    simp only [List.length_nil, Nat.zero_add]
    exact ih (fun j hj => h j (List.mem_cons_of_mem a hj))

theorem dispatched_second_run_empty (jobs : List Job) (content : String → String)
    (fs : List String) :
    ∀ j ∈ to_dispatch jobs (download_files jobs content fs).2,
      content j.source_url = "" := by
  intro j hj
  obtain ⟨hjobs, hnot⟩ := (mem_to_dispatch _ _ _).mp hj
  rw [download_files_snd, List.mem_append] at hnot
  push_neg at hnot
  obtain ⟨hfs, hw⟩ := hnot
  by_contra hne
  exact hw (mem_writtenPaths_flatMap content _ j ((mem_to_dispatch _ _ _).mpr ⟨hjobs, hfs⟩) hne)

/-! ## Claim theorems -/

/-- C6: for every album metadata input, the resolver's output consists of
the track jobs first, in trackinfo source order (an order-preserving
`filterMap` of the per-track summary), followed by the album-art job last
when a (truthy) cover-art URL is supplied. -/
theorem C6_output_ordering (td : TralbumData) (folder : String) (art : Option String) :
    generate_file_names td folder art
      = Except.ok (td.trackinfo.filterMap (trackJob folder) ++ art_jobs folder art,
          td.trackinfo.filterMap (trackWarn folder)) := by
  unfold generate_file_names
  rw [gen_tracks_eq]

/-- C7: each track's destination basename is `{track_num:02d} - {title with
'/' replaced by ' '}.mp3`; the basename contains no path separator for any
title, and the spec's example `track_num = 1`, title `"A/B"` yields
`"01 - A B.mp3"`. -/
theorem C7_track_filename (n : Nat) (title : String) :
    '/' ∉ (trackBasename n title).data
    ∧ trackBasename 1 "A/B" = "01 - A B.mp3" :=
  ⟨trackBasename_no_slash n title, by decide⟩

/-- C10: the first-available-candidate fallback is only reached for
non-empty mappings, so `generate_file_names` never raises: for every input
metadata it returns a result (in particular never `IndexError`). -/
theorem C10_no_index_error (td : TralbumData) (folder : String) (art : Option String) :
    ∃ jobs warns, generate_file_names td folder art = Except.ok (jobs, warns) := by
  refine ⟨td.trackinfo.filterMap (trackJob folder) ++ art_jobs folder art,
    td.trackinfo.filterMap (trackWarn folder), ?_⟩
  unfold generate_file_names
  rw [gen_tracks_eq]

/-- C1 (counterexample): a redirect-prefixed URL offered under the preferred
`mp3-128` key IS the selected source URL whenever it is also the mapping's
first candidate — the fallback re-selects the very same value, so the claim
"a redirect-only URL is never the selected source URL" is false. -/
theorem C1_counterexample :
    selectSourceUrl [("mp3-128", "https://bandcamp.com/stream_redirect?x")]
      = some "https://bandcamp.com/stream_redirect?x"
    ∧ strStartsWith "https://bandcamp.com/stream_redirect?x" redirect_marker = true := by
  constructor <;> decide

/-- C1 (amended): selection is a deterministic function of the mapping with
preference `mp3-128` → `mp3-v0` → first available candidate; a redirect
URL under a preferred key is rejected in favour of the first candidate, so
a redirect-prefixed URL can be selected only as the mapping's first
candidate value. -/
theorem C1_source_url_selection (m : List (String × String)) (hm : m ≠ []) :
    (selectSourceUrl m).isSome = true
    ∧ (∀ v, getStr m "mp3-128" = some v → v ≠ "" →
        strStartsWith v redirect_marker = false → selectSourceUrl m = some v)
    ∧ ((getStr m "mp3-128" = none ∨ getStr m "mp3-128" = some "") →
        ∀ w, getStr m "mp3-v0" = some w → w ≠ "" →
        strStartsWith w redirect_marker = false → selectSourceUrl m = some w)
    ∧ (pyOrStr (getStr m "mp3-128") (getStr m "mp3-v0") = none →
        selectSourceUrl m = Option.map Prod.snd m.head?)
    ∧ (∀ u, selectSourceUrl m = some u → strStartsWith u redirect_marker = true →
        Option.map Prod.snd m.head? = some u) := by
  refine ⟨select_isSome m hm, ?_, ?_, ?_, ?_⟩
  · intro v hv hne hr
    simp [selectSourceUrl, pyOrStr, hv, hne, hr]
  · intro h128 w hw hne hr
    rcases h128 with h | h <;> simp [selectSourceUrl, pyOrStr, h, hw, hne, hr]
  · intro h
    simp [selectSourceUrl, h]
  · intro u hu hr
    revert hu
    unfold selectSourceUrl
    cases h : pyOrStr (getStr m "mp3-128") (getStr m "mp3-v0") with
    | none => exact fun hu => hu
    | some w =>
      cases hrw : strStartsWith w redirect_marker with
      | false =>
        simp only [hrw, if_false]
        intro hu
        cases hu
        rw [hr] at hrw
        exact absurd hrw (by decide)
      | true =>
        simp only [hrw, if_true]
        exact fun hu => hu

/-- C1 (witness): the spec's own example — a mapping with only `mp3-v0`
selects that URL. -/
theorem C1_witness :
    selectSourceUrl [("mp3-v0", "http://x/track.mp3")] = some "http://x/track.mp3" :=
  (C1_source_url_selection [("mp3-v0", "http://x/track.mp3")] (by decide)).2.2.1
    (Or.inl (by decide)) "http://x/track.mp3" (by decide) (by decide) (by decide)

/-- C2 (counterexample): the code defines no `MetadataNotFoundError` at
all.  On a page with zero `data-tralbum` blobs, `get_album_data_from_head`
does not fail — it logs and returns `None` (`Except.ok none`); the batch
then dies later in `download_album` with a `TypeError` when it subscripts
`None` at `tralbum_data["is_purchased"]`. -/
theorem C2_counterexample :
    get_album_data_from_head [] (fun _ => none) = Except.ok none
    ∧ (download_album "lib" "u" [] (fun _ => none) (fun _ => "") [] none).2.2
        = some PyError.typeError := by
  constructor <;> rfl

/-- C2 (amended): with zero blobs, resolution returns `None` instead of
raising a dedicated error; `download_album` then fails with an unhandled
`TypeError` before creating any folder, fetching any asset or writing any
file — so the condition is surfaced to the caller, but as `TypeError`, not
as a `MetadataNotFoundError`. -/
theorem C2_no_blob_behaviour (lib url : String) (scripts : List (Option String))
    (parse : String → Option TralbumData) (content : String → String)
    (fs : List String) (art : Option String)
    (h : tralbum_blobs scripts = []) :
    get_album_data_from_head scripts parse = Except.ok none
    ∧ download_album lib url scripts parse content fs art
        = ([Effect.fetchPage url], fs, some PyError.typeError) := by
  have hg : get_album_data_from_head scripts parse = Except.ok none := by
    unfold get_album_data_from_head
    rw [h]
  refine ⟨hg, ?_⟩
  unfold download_album
  rw [hg]

/-- C2 (witness): the amended behaviour at a concrete empty page. -/
theorem C2_witness :
    download_album "lib" "u" [none] (fun _ => none) (fun _ => "") [] none
      = ([Effect.fetchPage "u"], ([] : List String), some PyError.typeError) :=
  (C2_no_blob_behaviour "lib" "u" [none] (fun _ => none) (fun _ => "") [] none rfl).2

/-- C3: when the parsed metadata has `is_purchased = false`,
`download_album` raises `NotPurchasedException` before the album folder is
created and before any asset job is dispatched: the trace holds only the
page fetch — zero asset fetches and zero writes — and the filesystem is
unchanged. -/
theorem C3_not_purchased_guard (lib url : String) (scripts : List (Option String))
    (parse : String → Option TralbumData) (content : String → String)
    (fs : List String) (art : Option String) (td : TralbumData)
    (hmeta : get_album_data_from_head scripts parse = Except.ok (some td))
    (hp : td.is_purchased = false) :
    download_album lib url scripts parse content fs art
      = ([Effect.fetchPage url], fs, some PyError.notPurchased)
    ∧ countFetch (download_album lib url scripts parse content fs art).1 = 0
    ∧ countWrite (download_album lib url scripts parse content fs art).1 = 0 := by
  have h : download_album lib url scripts parse content fs art
      = ([Effect.fetchPage url], fs, some PyError.notPurchased) := by
    unfold download_album
    rw [hmeta]
    simp [hp]
  refine ⟨h, ?_, ?_⟩ <;> rw [h] <;> rfl

/-- C3 (witness): a concrete unpurchased album is rejected with no asset
activity. -/
theorem C3_witness :
    download_album "lib" "u" [some "b"]
        (fun _ => some (TralbumData.mk false "ar" "ti" [])) (fun _ => "") [] none
      = ([Effect.fetchPage "u"], ([] : List String), some PyError.notPurchased) :=
  (C3_not_purchased_guard "lib" "u" [some "b"]
    (fun _ => some (TralbumData.mk false "ar" "ti" [])) (fun _ => "") [] none
    (TralbumData.mk false "ar" "ti" []) rfl rfl).1

/-- C4 (counterexample): a job whose source body is empty writes nothing on
the first run, so its destination still does not exist; the second run
dispatches and fetches it again — its outcome is not `skipped` (it is not
excluded from dispatch), refuting "every job's outcome is skipped on the
second run".  Zero writes still hold. -/
theorem C4_counterexample :
    to_dispatch [Job.mk "f" "u"] ((download_files [Job.mk "f" "u"] (fun _ => "") []).2)
      = [Job.mk "f" "u"]
    ∧ countFetch (download_files [Job.mk "f" "u"] (fun _ => "")
        ((download_files [Job.mk "f" "u"] (fun _ => "") []).2)).1 = 1
    ∧ countWrite (download_files [Job.mk "f" "u"] (fun _ => "")
        ((download_files [Job.mk "f" "u"] (fun _ => "") []).2)).1 = 0 := by
  refine ⟨?_, ?_, ?_⟩ <;> rfl

/-- C4 (amended): running the orchestrator twice over the same job list
with the source unchanged performs zero writes on the second run; every job
whose fetch produced non-empty content is excluded from dispatch (skipped)
on the second run, but a job whose source content is empty is re-dispatched
and re-fetched. -/
theorem C4_second_run (jobs : List Job) (content : String → String) (fs : List String) :
    countWrite (download_files jobs content (download_files jobs content fs).2).1 = 0
    ∧ ∀ j, j ∈ jobs → content j.source_url ≠ "" →
        j.target_file_name ∈ (download_files jobs content fs).2
        ∧ j ∉ to_dispatch jobs (download_files jobs content fs).2 := by
  constructor
  · rw [download_files_fst]
    exact countWrite_eq_zero content _ (dispatched_second_run_empty jobs content fs)
  · intro j hj hne
    have hw : j.target_file_name ∈ (download_files jobs content fs).2 := by
      rw [download_files_snd]
      by_cases hfs : j.target_file_name ∈ fs
      · exact List.mem_append.mpr (Or.inl hfs)
      · refine List.mem_append.mpr (Or.inr ?_)
        exact mem_writtenPaths_flatMap content _ j
          ((mem_to_dispatch _ _ _).mpr ⟨hj, hfs⟩) hne
    exact ⟨hw, fun hd => ((mem_to_dispatch _ _ _).mp hd).2 hw⟩

/-- C4 (witness): zero writes on the second run at a concrete input. -/
theorem C4_witness :
    countWrite (download_files [Job.mk "f" "u"] (fun _ => "x")
      (download_files [Job.mk "f" "u"] (fun _ => "x") []).2).1 = 0 :=
  (C4_second_run [Job.mk "f" "u"] (fun _ => "x") []).1

/-- C5: dispatching N jobs of which M have an already-existing destination
issues exactly N − M fetch attempts (one per dispatched job — only jobs
whose destination does not exist are dispatched) and the count is invariant
under permutation of the job list (dispatch interleaving). -/
theorem C5_dispatch_counts (jobs jobs' : List Job) (content : String → String)
    (fs : List String) (hperm : List.Perm jobs jobs') :
    countFetch (download_files jobs content fs).1
        + (jobs.filter (fun j => fs.contains j.target_file_name)).length = jobs.length
    ∧ countFetch (download_files jobs content fs).1 = (to_dispatch jobs fs).length
    ∧ countFetch (download_files jobs' content fs).1
        = countFetch (download_files jobs content fs).1 := by
  have h1 : ∀ l : List Job,
      countFetch (download_files l content fs).1 = (to_dispatch l fs).length := by
    intro l
    rw [download_files_fst]
    exact countFetch_flatMap content _
  refine ⟨?_, h1 jobs, ?_⟩
  · rw [h1]
    unfold to_dispatch
    exact length_filter_partition jobs _
  · rw [h1, h1]
    unfold to_dispatch
    exact ((hperm.filter _).length_eq).symm

/-- C5 (witness): 3 jobs, 1 pre-existing destination, 2 fetch attempts. -/
theorem C5_witness :
    countFetch (download_files [Job.mk "a" "u1", Job.mk "b" "u2", Job.mk "c" "u3"]
        (fun _ => "x") ["b"]).1
      + ([Job.mk "a" "u1", Job.mk "b" "u2", Job.mk "c" "u3"].filter
          (fun j => (["b"] : List String).contains j.target_file_name)).length = 3 :=
  (C5_dispatch_counts [Job.mk "a" "u1", Job.mk "b" "u2", Job.mk "c" "u3"]
    [Job.mk "c" "u3", Job.mk "b" "u2", Job.mk "a" "u1"]
    (fun _ => "x") ["b"] (by decide)).1

/-- C8: a track whose candidate mapping is absent (`null`) or empty
contributes no job — the resolver's jobs are the same as if the track were
not there — and it contributes a warning naming its would-be path; the
condition is non-fatal: the resolution still returns `Except.ok`. -/
theorem C8_missing_candidates_skipped (folder : String) (p : Bool) (a ttl : String)
    (pre post : List TrackInfo) (t : TrackInfo) (art : Option String)
    (ht : t.file = none ∨ t.file = some []) :
    Except.map Prod.fst
        (generate_file_names (TralbumData.mk p a ttl (pre ++ t :: post)) folder art)
      = Except.map Prod.fst
        (generate_file_names (TralbumData.mk p a ttl (pre ++ post)) folder art)
    ∧ ∃ jobs warns,
        generate_file_names (TralbumData.mk p a ttl (pre ++ t :: post)) folder art
          = Except.ok (jobs, warns)
        ∧ joinpath folder (trackBasename t.track_num t.title) ∈ warns := by
  have hjob : trackJob folder t = none := by
    rcases ht with h | h <;> simp [trackJob, h]
  have hwarn : trackWarn folder t
      = some (joinpath folder (trackBasename t.track_num t.title)) := by
    rcases ht with h | h <;> simp [trackWarn, h]
  constructor
  · unfold generate_file_names
    rw [gen_tracks_eq, gen_tracks_eq]
    simp [Except.map, List.filterMap_append, List.filterMap_cons, hjob]
  · refine ⟨(pre ++ t :: post).filterMap (trackJob folder) ++ art_jobs folder art,
      (pre ++ t :: post).filterMap (trackWarn folder), ?_, ?_⟩
    · unfold generate_file_names
      rw [gen_tracks_eq]
    · simp [List.filterMap_append, List.filterMap_cons, hwarn]

/-- C8 (witness): a `null`-file track between two albums' tracks is
dropped without affecting the other jobs. -/
theorem C8_witness :
    Except.map Prod.fst
        (generate_file_names (TralbumData.mk true "a" "t"
          [TrackInfo.mk 1 "A" (some [("mp3-128", "u")]), TrackInfo.mk 2 "B" none])
          "f" none)
      = Except.map Prod.fst
        (generate_file_names (TralbumData.mk true "a" "t"
          [TrackInfo.mk 1 "A" (some [("mp3-128", "u")])]) "f" none) :=
  (C8_missing_candidates_skipped "f" true "a" "t"
    [TrackInfo.mk 1 "A" (some [("mp3-128", "u")])] [] (TrackInfo.mk 2 "B" none)
    none (Or.inl rfl)).1

/-- C9 (counterexample): `<ext>` is computed as `url.split('.')[-1]` over
the WHOLE URL, not as the final path segment's extension: a cover URL whose
final path segment has no dot (`"http://x.org/cover"`) yields the
destination `albumart.org/cover`, whose "extension" spans a path
separator — not a final-path-segment extension. -/
theorem C9_counterexample :
    generate_file_names (TralbumData.mk true "a" "t" []) "f" (some "http://x.org/cover")
      = Except.ok ([Job.mk "f/albumart.org/cover" "http://x.org/cover"], [])
    ∧ pyLastSeg "http://x.org/cover" = "org/cover"
    ∧ '/' ∈ (pyLastSeg "http://x.org/cover").data := by
  refine ⟨rfl, by decide, by decide⟩

/-- C9 (amended): for every supplied non-empty cover-art URL the resolver
appends exactly one extra job whose destination is `albumart.<ext>` where
`<ext>` is the substring of the whole URL after its last `'.'` (which
equals the final path segment's extension whenever that segment contains a
dot, e.g. `http://x/y.jpg` → `albumart.jpg`); when the URL is absent no
art job is produced. -/
theorem C9_art_job (td : TralbumData) (folder u : String) (hu : u ≠ "") :
    generate_file_names td folder none
      = Except.ok (td.trackinfo.filterMap (trackJob folder),
          td.trackinfo.filterMap (trackWarn folder))
    ∧ generate_file_names td folder (some u)
      = Except.ok (td.trackinfo.filterMap (trackJob folder)
            ++ [Job.mk (joinpath folder ("albumart." ++ pyLastSeg u)) u],
          td.trackinfo.filterMap (trackWarn folder)) := by
  constructor
  · unfold generate_file_names
    rw [gen_tracks_eq]
    simp [art_jobs]
  · unfold generate_file_names
    rw [gen_tracks_eq]
    simp [art_jobs, hu]

/-- C9 (witness): the spec's end-to-end example — two tracks plus
`cover_art_url = "http://x/y.jpg"` resolve to the three jobs
`01 - A B.mp3`, `02 - C.mp3`, `albumart.jpg`, in that order. -/
theorem C9_witness :
    generate_file_names (TralbumData.mk true "a" "t"
        [TrackInfo.mk 1 "A/B" (some [("mp3-128", "u1")]),
         TrackInfo.mk 2 "C" (some [("mp3-v0", "u2")])]) "f" (some "http://x/y.jpg")
      = Except.ok ([Job.mk "f/01 - A B.mp3" "u1", Job.mk "f/02 - C.mp3" "u2",
          Job.mk "f/albumart.jpg" "http://x/y.jpg"], []) :=
  (C9_art_job (TralbumData.mk true "a" "t"
    [TrackInfo.mk 1 "A/B" (some [("mp3-128", "u1")]),
     TrackInfo.mk 2 "C" (some [("mp3-v0", "u2")])]) "f" "http://x/y.jpg" (by decide)).2

end Bcdl
